import Mathlib

set_option autoImplicit false
set_option linter.unusedVariables false

/-!
Shallow embedding of the distributed control plane of the NeRF batch-processing
framework: the Redis-backed store state, the production store adapter
(`RedisClientProduction`, src/framework/src/storage/redis_client_production.cpp),
the alternative metadata store (`MetadataStore`,
src/framework/src/storage/metadata_store.cpp), the coordinator
(`ProductionCoordinator`, src/framework/src/coordinator/production_coordinator.cpp)
and the simple HTTP server of nerf_main
(src/framework/src/coordinator/nerf_main.cpp).

The store is modelled as the contents of a connected Redis instance: hashes,
lists, sets and plain string keys.  Transport failures (lost connection,
reconnection) are outside the state model; every operation is modelled in the
connected case, in which the Redis commands the source issues (HSET, LPUSH,
LPOP, SADD, EXISTS, ...) succeed.  Lists are kept head-first: index 0 is the
Redis "left" end, so LPUSH conses and LPOP takes the head.
-/

/-- The visible state of the external Redis store: hash keys (association
lists of field/value pairs, in insertion order as HSET leaves them), list
keys (head = left end), set keys (member lists without duplicates) and plain
string keys. -/
structure Store where
  hash : String → List (String × String)
  list : String → List String
  sets : String → List String
  str : String → Option String

/-- A fresh, empty database (the valid initial state). -/
def Store.empty : Store :=
  { hash := fun _ => [], list := fun _ => [], sets := fun _ => [], str := fun _ => none }

namespace Store

/-- HSET on a single hash value: overwrite the field in place, or append it
when absent. -/
def setField : List (String × String) → String → String → List (String × String)
  | [], f, v => [(f, v)]
  | (g, w) :: rest, f, v =>
    if g = f then (f, v) :: rest else (g, w) :: setField rest f v

/-- HGET on a single hash value. -/
def lookupField : List (String × String) → String → Option String
  | [], _ => none
  | (g, w) :: rest, f => if g = f then some w else lookupField rest f

/-- HSET. -/
def hset (s : Store) (key field value : String) : Store :=
  { s with hash := fun k => if k = key then setField (s.hash key) field value else s.hash k }

/-- HGET (`none` models the nil reply for an absent key or field). -/
def hget (s : Store) (key field : String) : Option String :=
  lookupField (s.hash key) field

/-- LPUSH: insert at the head (the Redis left end). -/
def lpush (s : Store) (key value : String) : Store :=
  { s with list := fun k => if k = key then value :: s.list key else s.list k }

/-- LPOP: remove and return the head (the Redis left end). -/
def lpop (s : Store) (key : String) : Option String × Store :=
  match s.list key with
  | [] => (none, s)
  | v :: rest => (some v, { s with list := fun k => if k = key then rest else s.list k })

/-- SADD: add a member to a set key if not already present. -/
def sadd (s : Store) (key member : String) : Store :=
  { s with sets := fun k =>
      if k = key then
        (if (s.sets key).contains member then s.sets key else s.sets key ++ [member])
      else s.sets k }

/-- EXISTS: a key of any type is present. -/
def existsKey (s : Store) (key : String) : Bool :=
  !(s.hash key).isEmpty || !(s.list key).isEmpty || !(s.sets key).isEmpty || (s.str key).isSome

end Store

/-!
`RedisClientProduction` (src/framework/src/storage/redis_client_production.cpp).
Implemented operations are embedded over `Store`; each operation that the C++
returns `bool` for always succeeds in the connected model.  The operations at
lines 352-377 of the source file are stubs: they return a constant failure or
empty value without issuing any Redis command, and are embedded exactly so.
-/

namespace RedisClientProduction

/-- `SetHash` (line 139): HSET; the reply is an integer, so the call succeeds. -/
def SetHash (s : Store) (key field value : String) : Store :=
  Store.hset s key field value

/-- `GetHash` (line 148): HGET; `none` models the nil reply (key/field absent). -/
def GetHash (s : Store) (key field : String) : Option String :=
  Store.hget s key field

/-- `PushLeft` (line 166): LPUSH, i.e. insertion at the head. -/
def PushLeft (s : Store) (key value : String) : Store :=
  Store.lpush s key value

/-- `PopLeft` (line 175): LPOP, i.e. removal at the head. -/
def PopLeft (s : Store) (key : String) : Option String × Store :=
  Store.lpop s key

/-- `GetListLength` (line 192): LLEN. -/
def GetListLength (s : Store) (key : String) : Int :=
  ((s.list key).length : Int)

/-- `Exists` (line 120): EXISTS. -/
def ExistsKey (s : Store) (key : String) : Bool :=
  Store.existsKey s key

/-- `AddToSet` (line 346): SADD. -/
def AddToSet (s : Store) (key member : String) : Store :=
  Store.sadd s key member

/-- `RegisterWorker` (lines 206-215): four HSETs on `worker:<id>` then SADD to
`active_workers`. -/
def RegisterWorker (s : Store) (now : Nat) (worker_id host : String) (port : Int) : Store :=
  let s1 := SetHash s ("worker:" ++ worker_id) "host" host
  let s2 := SetHash s1 ("worker:" ++ worker_id) "port" (toString port)
  let s3 := SetHash s2 ("worker:" ++ worker_id) "status" "active"
  let s4 := SetHash s3 ("worker:" ++ worker_id) "last_heartbeat" (toString now)
  AddToSet s4 "active_workers" worker_id

/-- `SubmitJob` (lines 217-225): three HSETs on `job:<id>` (config, status
`pending`, created_at) then LPUSH of the job id onto `job_queue`. -/
def SubmitJob (s : Store) (now : Nat) (job_id job_config : String) : Store :=
  let s1 := SetHash s ("job:" ++ job_id) "config" job_config
  let s2 := SetHash s1 ("job:" ++ job_id) "status" "pending"
  let s3 := SetHash s2 ("job:" ++ job_id) "created_at" (toString now)
  PushLeft s3 "job_queue" job_id

/-- `RemoveFromSet` (line 352): stub, `return false`. -/
def RemoveFromSet (s : Store) (key member : String) : Bool × Store :=
  (false, s)

/-- `IsMemberOfSet` (line 353): stub, `return false`. -/
def IsMemberOfSet (s : Store) (key member : String) : Bool × Store :=
  (false, s)

/-- `GetSetMembers` (line 354): stub, `return {}`. -/
def GetSetMembers (s : Store) (key : String) : List String × Store :=
  ([], s)

/-- `GetSetSize` (line 355): stub, `return -1`. -/
def GetSetSize (s : Store) (key : String) : Int × Store :=
  (-1, s)

/-- `Increment` (line 356): stub, `return -1`. -/
def Increment (s : Store) (key : String) : Int × Store :=
  (-1, s)

/-- `Decrement` (line 357): stub, `return -1`. -/
def Decrement (s : Store) (key : String) : Int × Store :=
  (-1, s)

/-- `IncrementBy` (line 358): stub, `return -1`. -/
def IncrementBy (s : Store) (key : String) (value : Int) : Int × Store :=
  (-1, s)

/-- `UpdateWorkerHeartbeat` (line 370): stub, `return false`. -/
def UpdateWorkerHeartbeat (s : Store) (worker_id : String) : Bool × Store :=
  (false, s)

/-- `GetActiveWorkers` (line 371): stub, `return {}`. -/
def GetActiveWorkers (s : Store) : List String × Store :=
  ([], s)

/-- `AddTask` (line 372): stub, `return false`. -/
def AddTask (s : Store) (job_id task_id task_data : String) : Bool × Store :=
  (false, s)

/-- `GetNextTask` (line 373): stub, `return false` leaving the out-parameter
unset (modelled as `none`). -/
def GetNextTask (s : Store) (worker_id : String) : Option String × Store :=
  (none, s)

/-- `CompleteTask` (line 374): stub, `return false`. -/
def CompleteTask (s : Store) (task_id result : String) : Bool × Store :=
  (false, s)

/-- `FailTask` (line 375): stub, `return false`. -/
def FailTask (s : Store) (task_id error : String) : Bool × Store :=
  (false, s)

end RedisClientProduction

/-!
`MetadataStore` (src/framework/src/storage/metadata_store.cpp), the second
store variant.  Only the heartbeat operation is needed by the claims.
-/

namespace MetadataStore

/-- `FormatKey` (line 321): `prefix + ":" + id`. -/
def FormatKey (p id : String) : String :=
  p ++ ":" ++ id

/-- `UpdateWorkerHeartbeat` (lines 219-229): when connected, issue
`HSET worker:<id> last_heartbeat <timestamp>` unconditionally; the reply is an
integer, so the call succeeds.  There is no existence check on the worker key:
HSET creates the hash when it is absent. -/
def UpdateWorkerHeartbeat (s : Store) (worker_id : String) (timestamp : Int) : Bool × Store :=
  (true, Store.hset s (FormatKey "worker" worker_id) "last_heartbeat" (toString timestamp))

end MetadataStore

/-!
`ProductionCoordinator` (src/framework/src/coordinator/production_coordinator.cpp).
HTTP handlers are embedded after request parsing (method routing and job-id
extraction from the path), as functions of the store, the current time and the
decoded request data.  The in-memory statistics counters (`total_jobs_` etc.)
are passed and returned explicitly.
-/

namespace ProductionCoordinator

/-- The HTTP status codes the coordinator's handlers produce. -/
inductive StatusCode where
  | OK
  | Created
  | BadRequest
  | NotFound
  | InternalError
  deriving DecidableEq

/-- `std::stoll` on the decimal timestamps the source writes
(`std::to_string(std::time(nullptr))`). -/
def decimalValue : List Char → Nat → Nat
  | [], acc => acc
  | c :: rest, acc => decimalValue rest (acc * 10 + (c.toNat - '0'.toNat))

/-- `std::stoll` restricted to the non-negative decimal strings the source
writes for timestamps (`std::to_string(std::time(nullptr))`). -/
def parseTimestamp (v : String) : Int :=
  (decimalValue v.data 0 : Int)

/-- `GenerateJobId` (lines 396-405): `"job_" + <unix seconds> + "_" + <random>`,
with the random draw in [100000, 999999] passed in as a parameter. -/
def GenerateJobId (timestamp rand : Nat) : String :=
  "job_" ++ toString timestamp ++ "_" ++ toString rand

/-- `IsWorkerActive` (lines 442-452): read `worker:<id> last_heartbeat`; absent
means inactive; otherwise active iff `now - last_heartbeat < worker_timeout_`. -/
def IsWorkerActive (s : Store) (now worker_timeout : Int) (worker_id : String) : Bool :=
  match RedisClientProduction.GetHash s ("worker:" ++ worker_id) "last_heartbeat" with
  | none => false
  | some hb => decide ((now - parseTimestamp hb) < worker_timeout)

/-- `RemoveInactiveWorkers` (lines 454-471): enumerate
`redis_->GetActiveWorkers()`; count the active ones; for each inactive one call
`RemoveFromSet("active_workers", id)` then set `worker:<id> status = inactive`.
Returns the final store and the in-memory `active_workers_` count. -/
def RemoveInactiveWorkers (s : Store) (now worker_timeout : Int) : Store × Nat :=
  let (workers, s0) := RedisClientProduction.GetActiveWorkers s
  workers.foldl
    (fun (acc : Store × Nat) worker_id =>
      if IsWorkerActive acc.1 now worker_timeout worker_id then
        (acc.1, acc.2 + 1)
      else
        let r := RedisClientProduction.RemoveFromSet acc.1 "active_workers" worker_id
        let s2 := RedisClientProduction.SetHash r.2 ("worker:" ++ worker_id) "status" "inactive"
        (s2, acc.2))
    (s0, 0)

/-- `GetAvailableWorkers` (lines 473-487): the members of
`redis_->GetActiveWorkers()` that pass `IsWorkerActive` and whose stored
`status` field reads `"active"`. -/
def GetAvailableWorkers (s : Store) (now worker_timeout : Int) : List String :=
  ((RedisClientProduction.GetActiveWorkers s).1).filter
    (fun worker_id =>
      IsWorkerActive s now worker_timeout worker_id &&
      (RedisClientProduction.GetHash s ("worker:" ++ worker_id) "status" == some "active"))

/-- The (task_id, task_data) arguments of the five `AddTask` calls the
materialization body issues for a job (lines 430-434):
`<job_id>_task_<i>` / `task_data_<i>` for `i = 0..4`. -/
def taskCalls (job_id : String) : List (String × String) :=
  (List.range 5).map (fun i => (job_id ++ "_task_" ++ toString i, "task_data_" ++ toString i))

/-- The materialization body of `ProcessPendingJobs` (lines 425-434), run for a
popped job once workers are available: set `job:<id> status = processing` and
`started_at = now`, then issue five `AddTask` calls.  Returns the resulting
store together with the trace of arguments passed to `AddTask`. -/
def materializeJob (s : Store) (now : Nat) (job_id : String) : Store × List (String × String) :=
  let s1 := RedisClientProduction.SetHash s ("job:" ++ job_id) "status" "processing"
  let s2 := RedisClientProduction.SetHash s1 ("job:" ++ job_id) "started_at" (toString now)
  let s3 := (taskCalls job_id).foldl
    (fun st call => (RedisClientProduction.AddTask st job_id call.1 call.2).2) s2
  (s3, taskCalls job_id)

/-- The `while (redis_->PopLeft("job_queue", job_id))` loop of
`ProcessPendingJobs` (lines 414-437).  Each iteration pops one job id; if
`GetAvailableWorkers` is empty the id is pushed back (LPUSH) and the loop
breaks; otherwise the job is materialized and the loop continues.  The fuel is
the initial queue length, which bounds the number of successful pops since no
branch pushes onto `job_queue` except the terminal push-back. -/
def processLoop : Nat → Store → Nat → Int → Int → Store
  | 0, s, _, _, _ => s
  | fuel + 1, s, now, nowSec, worker_timeout =>
    match RedisClientProduction.PopLeft s "job_queue" with
    | (none, s1) => s1
    | (some job_id, s1) =>
      if GetAvailableWorkers s1 nowSec worker_timeout = [] then
        RedisClientProduction.PushLeft s1 "job_queue" job_id
      else
        processLoop fuel (materializeJob s1 now job_id).1 now nowSec worker_timeout

/-- `ProcessPendingJobs` (lines 407-440): return unchanged when
`GetListLength("job_queue") <= 0`, else run the pop loop.  `now` is the wall
clock in seconds (used both for `started_at` and the heartbeat check) and
`worker_timeout` the configured timeout. -/
def ProcessPendingJobs (s : Store) (now : Nat) (worker_timeout : Int) : Store :=
  if RedisClientProduction.GetListLength s "job_queue" ≤ 0 then s
  else processLoop (s.list "job_queue").length s now (now : Int) worker_timeout

/-- Outcome of the `POST /api/jobs` handler: HTTP status, store, the in-memory
`total_jobs_` counter after the call, and the job id returned to the client. -/
structure PostJobsOutcome where
  code : StatusCode
  store : Store
  total_jobs : Nat
  job_id : Option String

/-- `HandlePostJobs` (lines 181-222), after JSON decoding: reject with 400
unless both `plugin_name` and `config` are present; otherwise generate the job
id, run `SubmitJob` (which always succeeds in the connected model), increment
the in-memory `total_jobs_` counter and reply 201. -/
def HandlePostJobs (s : Store) (total_jobs now rand : Nat)
    (plugin_name config : Option String) : PostJobsOutcome :=
  match plugin_name, config with
  | some _, some cfg =>
    let job_id := GenerateJobId now rand
    let s1 := RedisClientProduction.SubmitJob s now job_id cfg
    { code := StatusCode.Created, store := s1, total_jobs := total_jobs + 1,
      job_id := some job_id }
  | _, _ =>
    { code := StatusCode.BadRequest, store := s, total_jobs := total_jobs, job_id := none }

/-- The JSON payload assembled by `HandleGetJobStatus` on the 200 path: the
stored status plus the optional fields the handler copies when present. -/
structure JobStatusResponse where
  job_id : String
  status : String
  created_at : Option String
  completed_at : Option String
  progress : Option String
  error : Option String
  deriving DecidableEq

/-- `HandleGetJobStatus` (lines 224-274), after extracting the job id from the
path: read `job:<id> status`; on success reply 200 with the status and the
optional `created_at`, `completed_at`, `progress`, `error` fields; on a nil
reply answer 404 with the error envelope. -/
def HandleGetJobStatus (s : Store) (job_id : String) : StatusCode × Option JobStatusResponse :=
  match RedisClientProduction.GetHash s ("job:" ++ job_id) "status" with
  | some st =>
    (StatusCode.OK, some
      { job_id := job_id
        status := st
        created_at := RedisClientProduction.GetHash s ("job:" ++ job_id) "created_at"
        completed_at := RedisClientProduction.GetHash s ("job:" ++ job_id) "completed_at"
        progress := RedisClientProduction.GetHash s ("job:" ++ job_id) "progress"
        error := RedisClientProduction.GetHash s ("job:" ++ job_id) "error" })
  | none => (StatusCode.NotFound, none)

/-- `HandleDeleteJob` (lines 311-342), after extracting the job id from the
path: if `EXISTS job:<id>` then set `status = cancelled` and
`cancelled_at = now` unconditionally (no terminal-state check) and reply 200;
otherwise reply 404. -/
def HandleDeleteJob (s : Store) (now : Nat) (job_id : String) : StatusCode × Store :=
  if RedisClientProduction.ExistsKey s ("job:" ++ job_id) then
    let s1 := RedisClientProduction.SetHash s ("job:" ++ job_id) "status" "cancelled"
    let s2 := RedisClientProduction.SetHash s1 ("job:" ++ job_id) "cancelled_at" (toString now)
    (StatusCode.OK, s2)
  else
    (StatusCode.NotFound, s)

end ProductionCoordinator

/-!
The simple socket HTTP server and `JobManager` of
src/framework/src/coordinator/nerf_main.cpp.  Its `processRequest` builds the
response itself and always writes the status line `HTTP/1.1 200 OK`, whatever
the body.  The `RedisClient` variant it uses is not part of the sources; its
`GetHash` is the store adapter's hash read over the same store model.
-/

namespace NerfMain

/-- The body `getJobStatus` returns when the stored status reads empty. -/
def notFoundBody : String :=
  "\x7b\"error\": \"Job not found\"\x7d"

/-- `JobManager::getJobStatus` (nerf_main.cpp lines 67-88): read five fields of
`job:<id>` (a failed `GetHash` leaves the C++ string empty); when the status
string is empty return the error body, otherwise assemble the JSON payload,
substituting "0" for the empty optional fields. -/
def getJobStatus (s : Store) (job_id : String) : String :=
  let status := (Store.hget s ("job:" ++ job_id) "status").getD ""
  let progress := (Store.hget s ("job:" ++ job_id) "progress").getD ""
  let created_at := (Store.hget s ("job:" ++ job_id) "created_at").getD ""
  let completed_tasks := (Store.hget s ("job:" ++ job_id) "completed_tasks").getD ""
  let total_tasks := (Store.hget s ("job:" ++ job_id) "total_tasks").getD ""
  if status = "" then notFoundBody
  else
    "\x7b\n    \"job_id\": \"" ++ job_id ++
    "\",\n    \"status\": \"" ++ status ++
    "\",\n    \"progress_percent\": " ++ (if progress ≠ "" then progress else "0") ++
    ",\n    \"completed_tasks\": " ++ (if completed_tasks ≠ "" then completed_tasks else "0") ++
    ",\n    \"total_tasks\": " ++ (if total_tasks ≠ "" then total_tasks else "0") ++
    ",\n    \"created_at\": " ++ (if created_at ≠ "" then created_at else "0") ++
    "\n\x7d"

/-- `SimpleHTTPServer::processRequest` (nerf_main.cpp lines 209-270) on a
`GET /api/jobs/<id>/status` request: the body is `getJobStatus` and the status
line is the constant `HTTP/1.1 200 OK`. -/
def processRequestGetJobStatus (s : Store) (job_id : String) : Nat × String :=
  (200, getJobStatus s job_id)

end NerfMain

/-!
Basic read/write lemmas about the store operations.
-/

theorem lookupField_setField_same (l : List (String × String)) (f v : String) :
    Store.lookupField (Store.setField l f v) f = some v := by
  induction l with
  | nil => simp [Store.setField, Store.lookupField]
  | cons p rest ih =>
    obtain ⟨g, w⟩ := p
    by_cases h : g = f
    · simp [Store.setField, Store.lookupField, h]
    · simp [Store.setField, Store.lookupField, h, ih]

theorem lookupField_setField_ne (l : List (String × String)) (f g v : String)
    (h : g ≠ f) :
    Store.lookupField (Store.setField l f v) g = Store.lookupField l g := by
  induction l with
  | nil => simp [Store.setField, Store.lookupField, Ne.symm h]
  | cons p rest ih =>
    obtain ⟨a, b⟩ := p
    by_cases ha : a = f
    · subst ha
      simp [Store.setField, Store.lookupField, Ne.symm h]
    · simp only [Store.setField, if_neg ha, Store.lookupField]
      by_cases hg : a = g
      · simp [hg]
      · simp [hg, ih]

theorem hget_hset_same (s : Store) (k f v : String) :
    Store.hget (Store.hset s k f v) k f = some v := by
  simp [Store.hget, Store.hset, lookupField_setField_same]

theorem hget_hset_ne_field (s : Store) (k f g v : String) (h : g ≠ f) :
    Store.hget (Store.hset s k f v) k g = Store.hget s k g := by
  simp [Store.hget, Store.hset, lookupField_setField_ne _ _ _ _ h]

theorem hash_hset_ne_key (s : Store) (k f v : String) (k2 : String) (h : k2 ≠ k) :
    (Store.hset s k f v).hash k2 = s.hash k2 := by
  simp [Store.hset, h]

theorem hget_hset_ne_key (s : Store) (k f v : String) (k2 g : String) (h : k2 ≠ k) :
    Store.hget (Store.hset s k f v) k2 g = Store.hget s k2 g := by
  simp [Store.hget, hash_hset_ne_key s k f v k2 h]

theorem hset_list (s : Store) (k f v : String) :
    (Store.hset s k f v).list = s.list := rfl

theorem hset_sets (s : Store) (k f v : String) :
    (Store.hset s k f v).sets = s.sets := rfl

theorem hset_str (s : Store) (k f v : String) :
    (Store.hset s k f v).str = s.str := rfl

theorem lpush_hash (s : Store) (k v : String) :
    (Store.lpush s k v).hash = s.hash := rfl

theorem lpush_list_same (s : Store) (k v : String) :
    (Store.lpush s k v).list k = v :: s.list k := by
  simp [Store.lpush]

theorem lpop_head (s : Store) (k : String) :
    (Store.lpop s k).1 = (s.list k).head? := by
  unfold Store.lpop
  cases s.list k <;> simp

/-!
Claim theorems.
-/

/-- Claim C10: every one of the thirteen listed adapter operations of
`RedisClientProduction` returns a constant failure or empty value and performs
no store mutation, for every argument and every store state. -/
theorem c10_production_adapter_stubs (s : Store) (k m v : String) (n : Int) :
    RedisClientProduction.RemoveFromSet s k m = (false, s) ∧
    RedisClientProduction.IsMemberOfSet s k m = (false, s) ∧
    RedisClientProduction.GetSetMembers s k = ([], s) ∧
    RedisClientProduction.GetSetSize s k = (-1, s) ∧
    RedisClientProduction.Increment s k = (-1, s) ∧
    RedisClientProduction.Decrement s k = (-1, s) ∧
    RedisClientProduction.IncrementBy s k n = (-1, s) ∧
    RedisClientProduction.UpdateWorkerHeartbeat s k = (false, s) ∧
    RedisClientProduction.GetActiveWorkers s = ([], s) ∧
    RedisClientProduction.AddTask s k m v = (false, s) ∧
    RedisClientProduction.GetNextTask s k = (none, s) ∧
    RedisClientProduction.CompleteTask s k m = (false, s) ∧
    RedisClientProduction.FailTask s k m = (false, s) :=
  ⟨rfl, rfl, rfl, rfl, rfl, rfl, rfl, rfl, rfl, rfl, rfl, rfl, rfl⟩

/-- A store holding one in-flight job with one running task, the state in which
the task-completion operation would have to act. -/
def c1Store : Store :=
  { hash := fun k =>
      if k = "task:job_1_task_0" then
        [("job_id", "job_1"), ("status", "running"), ("attempts", "1")]
      else if k = "job:job_1" then
        [("status", "processing"), ("total_tasks", "5"), ("completed_tasks", "0"),
         ("failed_tasks", "0")]
      else []
    list := fun _ => []
    sets := fun _ => []
    str := fun _ => none }

/-- Claim C1, evaluated at the failing input: reporting a task completed via
`RedisClientProduction::CompleteTask` returns failure and leaves the store
untouched — the task keeps status `running` and gains no `output_ref` or
`completed_at`, and the parent job's `completed_tasks`, `progress_percent` and
`status` are not updated, contrary to the claimed completion policy. -/
theorem c1_completeTask_performs_no_completion :
    RedisClientProduction.CompleteTask c1Store "job_1_task_0" "output.bin" = (false, c1Store) ∧
    Store.hget c1Store "task:job_1_task_0" "status" = some "running" ∧
    Store.hget c1Store "task:job_1_task_0" "output_ref" = none ∧
    Store.hget c1Store "job:job_1" "completed_tasks" = some "0" ∧
    Store.hget c1Store "job:job_1" "status" = some "processing" :=
  ⟨rfl, rfl, rfl, rfl, rfl⟩

/-- A store with one member of `active_workers` whose heartbeat is stale:
`last_heartbeat = 0`, checked at `now = 1000` against `worker_timeout = 300`. -/
def c4Store : Store :=
  { hash := fun k =>
      if k = "worker:w1" then
        [("host", "host1"), ("port", "7001"), ("status", "active"), ("last_heartbeat", "0")]
      else []
    list := fun _ => []
    sets := fun k => if k = "active_workers" then ["w1"] else []
    str := fun _ => none }

/-- Claim C4, evaluated at the failing input: worker `w1` is a member of
`active_workers` and fails the heartbeat check, yet one run of
`RemoveInactiveWorkers` returns the store unchanged — `w1` is still in the set
and its status field still reads `active` — because the sweep enumerates
workers through the stub `GetActiveWorkers` (always empty) and would remove
through the stub `RemoveFromSet` (never mutates). -/
theorem c4_eviction_sweep_removes_nothing :
    ProductionCoordinator.IsWorkerActive c4Store 1000 300 "w1" = false ∧
    ProductionCoordinator.RemoveInactiveWorkers c4Store 1000 300 = (c4Store, 0) ∧
    c4Store.sets "active_workers" = ["w1"] ∧
    Store.hget c4Store "worker:w1" "status" = some "active" :=
  ⟨rfl, rfl, rfl, rfl⟩

/-- A store holding one terminal job: status `completed`, `completed_at = 50`. -/
def c2Store : Store :=
  { hash := fun k => if k = "job:j1" then [("status", "completed"), ("completed_at", "50")] else []
    list := fun _ => []
    sets := fun _ => []
    str := fun _ => none }

/-- Claim C2 counterexample: `DELETE /api/jobs/j1` on a job whose stored status
is `completed` is not rejected — the handler replies 200 and overwrites the
job's status to `cancelled`, also setting `cancelled_at`. -/
theorem c2_terminal_job_cancelled_counterexample :
    Store.hget c2Store "job:j1" "status" = some "completed" ∧
    (ProductionCoordinator.HandleDeleteJob c2Store 99 "j1").1 =
      ProductionCoordinator.StatusCode.OK ∧
    Store.hget (ProductionCoordinator.HandleDeleteJob c2Store 99 "j1").2
      "job:j1" "status" = some "cancelled" ∧
    Store.hget (ProductionCoordinator.HandleDeleteJob c2Store 99 "j1").2
      "job:j1" "cancelled_at" = some "99" :=
  ⟨rfl, rfl, rfl, rfl⟩

/-- Claim C2 (amended): the job-cancellation operation guards only on key
existence, never on terminal status: when `job:<id>` exists — whatever its
status, terminal included — it replies 200 and overwrites `status` to
`cancelled` and `cancelled_at` to now; when the key is absent it replies 404
and leaves the store unchanged. -/
theorem c2_delete_cancels_unconditionally (s : Store) (now : Nat) (jid : String) :
    (ProductionCoordinator.HandleDeleteJob s now jid).1 =
      (if RedisClientProduction.ExistsKey s ("job:" ++ jid) then
        ProductionCoordinator.StatusCode.OK
      else ProductionCoordinator.StatusCode.NotFound) ∧
    Store.hget (ProductionCoordinator.HandleDeleteJob s now jid).2 ("job:" ++ jid) "status" =
      (if RedisClientProduction.ExistsKey s ("job:" ++ jid) then some "cancelled"
      else Store.hget s ("job:" ++ jid) "status") ∧
    Store.hget (ProductionCoordinator.HandleDeleteJob s now jid).2 ("job:" ++ jid) "cancelled_at" =
      (if RedisClientProduction.ExistsKey s ("job:" ++ jid) then some (toString now)
      else Store.hget s ("job:" ++ jid) "cancelled_at") := by
  cases h : RedisClientProduction.ExistsKey s ("job:" ++ jid) with
  | false =>
    refine ⟨?_, ?_, ?_⟩ <;> simp [ProductionCoordinator.HandleDeleteJob, h]
  | true =>
    refine ⟨?_, ?_, ?_⟩
    · simp [ProductionCoordinator.HandleDeleteJob, h]
    · simp only [ProductionCoordinator.HandleDeleteJob, RedisClientProduction.SetHash, h,
        if_true]
      rw [hget_hset_ne_field _ _ _ _ _ (by decide : ("status" : String) ≠ "cancelled_at")]
      exact hget_hset_same _ _ _ _
    · simp only [ProductionCoordinator.HandleDeleteJob, RedisClientProduction.SetHash, h,
        if_true]
      exact hget_hset_same _ _ _ _

/-- Claim C3 counterexample: submitting jobs `j1` then `j2` into an empty store
and popping once from `job_queue` yields `j2`, not the first-submitted `j1`:
`SubmitJob` pushes with LPUSH at the head and the materialization loop pops
with LPOP at the head, so the queue is not FIFO. -/
theorem c3_fifo_counterexample :
    (RedisClientProduction.PopLeft
      (RedisClientProduction.SubmitJob
        (RedisClientProduction.SubmitJob Store.empty 10 "j1" "cfgA") 11 "j2" "cfgB")
      "job_queue").1 = some "j2" ∧
    some "j2" ≠ some "j1" :=
  ⟨rfl, by decide⟩

/-- Sequential admission of a list of job ids through `SubmitJob`. -/
def submitSeq (now : Nat) (cfg : String) : Store → List String → Store
  | s, [] => s
  | s, jid :: rest => submitSeq now cfg (RedisClientProduction.SubmitJob s now jid cfg) rest

theorem submitJob_queue_cons (s : Store) (now : Nat) (jid cfg : String) :
    (RedisClientProduction.SubmitJob s now jid cfg).list "job_queue" =
      jid :: s.list "job_queue" := by
  simp [RedisClientProduction.SubmitJob, RedisClientProduction.SetHash,
        RedisClientProduction.PushLeft, Store.lpush, Store.hset]

/-- Claim C3 (amended): both ends of the queue discipline are the head:
`SubmitJob` pushes job_ids at the head of `job_queue` (LPUSH) and the
materialization loop pops at the head (LPOP), so after any sequence of
submissions with no interleaved pops the queue holds the ids in reverse
submission order and pops return them most-recent-first (LIFO). -/
theorem c3_queue_is_lifo (now : Nat) (cfg : String) (ids : List String) (s : Store) :
    (submitSeq now cfg s ids).list "job_queue" = ids.reverse ++ s.list "job_queue" ∧
    (∀ (t : Store) (k : String), (RedisClientProduction.PopLeft t k).1 = (t.list k).head?) := by
  constructor
  · induction ids generalizing s with
    | nil => simp [submitSeq]
    | cons jid rest ih =>
      simp [submitSeq, ih, submitJob_queue_cons]
  · intro t k
    exact lpop_head t k

/-- Claim C5 counterexample: no record exists for worker `w9`, yet the
heartbeat operation of `MetadataStore` succeeds rather than failing with an
unknown-worker error, and it creates the `worker:w9` hash. -/
theorem c5_heartbeat_creates_record_counterexample :
    Store.existsKey Store.empty "worker:w9" = false ∧
    (MetadataStore.UpdateWorkerHeartbeat Store.empty "w9" 42).1 = true ∧
    Store.hget (MetadataStore.UpdateWorkerHeartbeat Store.empty "w9" 42).2
      "worker:w9" "last_heartbeat" = some "42" :=
  ⟨rfl, rfl, rfl⟩

/-- Claim C5 (amended): `MetadataStore::UpdateWorkerHeartbeat` performs an
unconditional HSET of `last_heartbeat`: it succeeds (when connected) for every
worker_id, registered or not, creating the `worker:<id>` hash when absent, and
it never touches `active_workers` (no set key or list key is modified);
`RedisClientProduction::UpdateWorkerHeartbeat` always fails and performs no
update at all. -/
theorem c5_heartbeat_unconditional_hset (s : Store) (w : String) (t : Int) :
    (MetadataStore.UpdateWorkerHeartbeat s w t).1 = true ∧
    Store.hget (MetadataStore.UpdateWorkerHeartbeat s w t).2 ("worker:" ++ w)
      "last_heartbeat" = some (toString t) ∧
    ((MetadataStore.UpdateWorkerHeartbeat s w t).2).sets = s.sets ∧
    ((MetadataStore.UpdateWorkerHeartbeat s w t).2).list = s.list ∧
    RedisClientProduction.UpdateWorkerHeartbeat s w = (false, s) := by
  refine ⟨rfl, ?_, rfl, rfl, rfl⟩
  exact hget_hset_same s (MetadataStore.FormatKey "worker" w) "last_heartbeat" (toString t)

/-- Claim C6 counterexample: a successful admission through `HandlePostJobs`
replies 201 and bumps the coordinator's in-memory counter to 1, yet afterwards
the store holds no `stats:total_jobs` key of any type — the claimed store
counter is never incremented (the adapter's `Increment` is a stub and the
handler only does `total_jobs_++` in process memory). -/
theorem c6_no_store_counter_counterexample :
    (ProductionCoordinator.HandlePostJobs Store.empty 0 1700000000 123456
      (some "nerf_avatar") (some "cfg")).code = ProductionCoordinator.StatusCode.Created ∧
    (ProductionCoordinator.HandlePostJobs Store.empty 0 1700000000 123456
      (some "nerf_avatar") (some "cfg")).total_jobs = 1 ∧
    (ProductionCoordinator.HandlePostJobs Store.empty 0 1700000000 123456
      (some "nerf_avatar") (some "cfg")).store.str "stats:total_jobs" = none ∧
    (ProductionCoordinator.HandlePostJobs Store.empty 0 1700000000 123456
      (some "nerf_avatar") (some "cfg")).store.hash "stats:total_jobs" = [] ∧
    (ProductionCoordinator.HandlePostJobs Store.empty 0 1700000000 123456
      (some "nerf_avatar") (some "cfg")).store.list "stats:total_jobs" = [] ∧
    (ProductionCoordinator.HandlePostJobs Store.empty 0 1700000000 123456
      (some "nerf_avatar") (some "cfg")).store.sets "stats:total_jobs" = [] :=
  ⟨rfl, rfl, rfl, rfl, rfl, rfl⟩

/-- Claim C6 (amended): admission with both fields present returns the job id
`job_<unix_seconds>_<random>`, writes `job:<id>` with `status = pending` and
`created_at = now`, pushes the id onto `job_queue` (at its head), and
increments the coordinator's in-memory `total_jobs_` counter; the store's
string keys are untouched and every hash key other than `job:<id>` is
unchanged — in particular no `stats:total_jobs` store counter is incremented. -/
theorem c6_admission_effects (s : Store) (total_jobs now rand : Nat) (plugin cfg : String) :
    (ProductionCoordinator.HandlePostJobs s total_jobs now rand
      (some plugin) (some cfg)).code = ProductionCoordinator.StatusCode.Created ∧
    (ProductionCoordinator.HandlePostJobs s total_jobs now rand
      (some plugin) (some cfg)).job_id =
        some ("job_" ++ toString now ++ "_" ++ toString rand) ∧
    Store.hget (ProductionCoordinator.HandlePostJobs s total_jobs now rand
      (some plugin) (some cfg)).store
      ("job:" ++ ProductionCoordinator.GenerateJobId now rand) "status" = some "pending" ∧
    Store.hget (ProductionCoordinator.HandlePostJobs s total_jobs now rand
      (some plugin) (some cfg)).store
      ("job:" ++ ProductionCoordinator.GenerateJobId now rand) "created_at" =
        some (toString now) ∧
    (ProductionCoordinator.HandlePostJobs s total_jobs now rand
      (some plugin) (some cfg)).store.list "job_queue" =
        ProductionCoordinator.GenerateJobId now rand :: s.list "job_queue" ∧
    (ProductionCoordinator.HandlePostJobs s total_jobs now rand
      (some plugin) (some cfg)).total_jobs = total_jobs + 1 ∧
    (ProductionCoordinator.HandlePostJobs s total_jobs now rand
      (some plugin) (some cfg)).store.str = s.str ∧
    (∀ k : String, k ≠ "job:" ++ ProductionCoordinator.GenerateJobId now rand →
      (ProductionCoordinator.HandlePostJobs s total_jobs now rand
        (some plugin) (some cfg)).store.hash k = s.hash k) := by
  refine ⟨rfl, rfl, ?_, ?_, ?_, rfl, rfl, ?_⟩
  · show Store.hget (RedisClientProduction.SubmitJob s now
      (ProductionCoordinator.GenerateJobId now rand) cfg) _ "status" = some "pending"
    unfold RedisClientProduction.SubmitJob RedisClientProduction.SetHash
      RedisClientProduction.PushLeft
    rw [show ∀ (t : Store) (k v f : String), Store.hget (Store.lpush t k v) _ f =
      Store.hget t _ f from fun _ _ _ _ => rfl]
    rw [hget_hset_ne_field _ _ _ _ _ (by decide : ("status" : String) ≠ "created_at")]
    exact hget_hset_same _ _ _ _
  · show Store.hget (RedisClientProduction.SubmitJob s now
      (ProductionCoordinator.GenerateJobId now rand) cfg) _ "created_at" = some (toString now)
    unfold RedisClientProduction.SubmitJob RedisClientProduction.SetHash
      RedisClientProduction.PushLeft
    rw [show ∀ (t : Store) (k v f : String), Store.hget (Store.lpush t k v) _ f =
      Store.hget t _ f from fun _ _ _ _ => rfl]
    exact hget_hset_same _ _ _ _
  · show (RedisClientProduction.SubmitJob s now
      (ProductionCoordinator.GenerateJobId now rand) cfg).list "job_queue" = _
    exact submitJob_queue_cons _ _ _ _
  · intro k hk
    show (RedisClientProduction.SubmitJob s now
      (ProductionCoordinator.GenerateJobId now rand) cfg).hash k = s.hash k
    unfold RedisClientProduction.SubmitJob RedisClientProduction.SetHash
      RedisClientProduction.PushLeft
    rw [show ∀ (t : Store) (k2 v : String), (Store.lpush t k2 v).hash = t.hash
      from fun _ _ _ => rfl]
    rw [hash_hset_ne_key _ _ _ _ _ hk, hash_hset_ne_key _ _ _ _ _ hk,
      hash_hset_ne_key _ _ _ _ _ hk]

/-- Witness for C6 (amended) at a concrete admission: the hash frame applied at
`stats:total_jobs` and the in-memory counter increment. -/
theorem c6_admission_effects_witness :
    (ProductionCoordinator.HandlePostJobs Store.empty 0 1700000000 123456
      (some "nerf_avatar") (some "cfg")).store.hash "stats:total_jobs" =
        Store.empty.hash "stats:total_jobs" ∧
    (ProductionCoordinator.HandlePostJobs Store.empty 0 1700000000 123456
      (some "nerf_avatar") (some "cfg")).total_jobs = 0 + 1 :=
  ⟨(c6_admission_effects Store.empty 0 1700000000 123456 "nerf_avatar" "cfg").2.2.2.2.2.2.2
      "stats:total_jobs" (by decide),
    (c6_admission_effects Store.empty 0 1700000000 123456 "nerf_avatar" "cfg").2.2.2.2.2.1⟩

theorem foldl_addTask_noop (jid : String) (l : List (String × String)) :
    ∀ st : Store,
      l.foldl (fun st call => (RedisClientProduction.AddTask st jid call.1 call.2).2) st = st := by
  induction l with
  | nil => intro st; rfl
  | cons c rest ih => intro st; exact ih st

/-- A store holding one pending job whose config blob requests a fan-out of 3. -/
def c7Store : Store :=
  { hash := fun k =>
      if k = "job:jobA" then [("config", "\x7b\"fanout\": 3\x7d"), ("status", "pending")]
      else []
    list := fun _ => []
    sets := fun _ => []
    str := fun _ => none }

/-- Claim C7 counterexample: the job's config specifies a fan-out of 3, yet the
materialization body issues five `AddTask` calls — the loop bound is the
literal 5, the config is never read — and, the adapter's `AddTask` being a
stub, not even a `task:` record is written. -/
theorem c7_fanout_ignored_counterexample :
    Store.hget c7Store "job:jobA" "config" = some "\x7b\"fanout\": 3\x7d" ∧
    ((ProductionCoordinator.materializeJob c7Store 50 "jobA").2).length = 5 ∧
    (5 : Nat) ≠ 3 ∧
    ((ProductionCoordinator.materializeJob c7Store 50 "jobA").1).hash "task:jobA_task_0" = [] :=
  ⟨rfl, rfl, by decide, rfl⟩

/-- Claim C7 (amended): the materialization body always issues exactly five
`AddTask` calls, for every store — hence for every config blob — and its only
store effect is on the `job:<id>` hash (status and started_at); no task record
is created since the production adapter's `AddTask` is a stub. -/
theorem c7_materialization_constant_fanout (s : Store) (now : Nat) (jid : String) :
    (ProductionCoordinator.materializeJob s now jid).2 = ProductionCoordinator.taskCalls jid ∧
    (ProductionCoordinator.taskCalls jid).length = 5 ∧
    (∀ k : String, k ≠ "job:" ++ jid →
      ((ProductionCoordinator.materializeJob s now jid).1).hash k = s.hash k) := by
  refine ⟨rfl, rfl, ?_⟩
  intro k hk
  simp only [ProductionCoordinator.materializeJob]
  rw [foldl_addTask_noop]
  unfold RedisClientProduction.SetHash
  rw [hash_hset_ne_key _ _ _ _ _ hk, hash_hset_ne_key _ _ _ _ _ hk]

/-- Witness for C7 (amended) at a concrete job: the call-trace length and the
hash frame applied at a would-be task key. -/
theorem c7_materialization_constant_fanout_witness :
    (ProductionCoordinator.taskCalls "jobA").length = 5 ∧
    ((ProductionCoordinator.materializeJob c7Store 50 "jobA").1).hash "task:jobA_task_1" =
      c7Store.hash "task:jobA_task_1" :=
  ⟨(c7_materialization_constant_fanout c7Store 50 "jobA").2.1,
    (c7_materialization_constant_fanout c7Store 50 "jobA").2.2 "task:jobA_task_1" (by decide)⟩

/-- Claim C8 counterexample: in the nerf_main HTTP server, a
`GET /api/jobs/nojob/status` request for a job absent from the store is
answered with HTTP status 200 — the status line is the constant
`HTTP/1.1 200 OK` — carrying the error body, not with status 404. -/
theorem c8_nerf_main_always_200_counterexample :
    Store.existsKey Store.empty "job:nojob" = false ∧
    (NerfMain.processRequestGetJobStatus Store.empty "nojob").1 = 200 ∧
    (NerfMain.processRequestGetJobStatus Store.empty "nojob").2 = NerfMain.notFoundBody :=
  ⟨rfl, rfl, rfl⟩

/-- Claim C8 (amended): the production coordinator's handler answers 404 with
the error envelope exactly when `job:<id>` has no status field (in particular
whenever the record is absent) and 200 carrying the stored status otherwise;
the nerf_main SimpleHTTPServer, by contrast, answers every such request with
HTTP status 200, absent jobs included. -/
theorem c8_job_status_codes (s : Store) (jid : String) :
    (ProductionCoordinator.HandleGetJobStatus s jid).1 =
      (if (Store.hget s ("job:" ++ jid) "status").isSome then
        ProductionCoordinator.StatusCode.OK
      else ProductionCoordinator.StatusCode.NotFound) ∧
    ((ProductionCoordinator.HandleGetJobStatus s jid).2).map
      (fun r => r.status) = Store.hget s ("job:" ++ jid) "status" ∧
    (NerfMain.processRequestGetJobStatus s jid).1 = 200 := by
  refine ⟨?_, ?_, rfl⟩ <;>
    cases h : Store.hget s ("job:" ++ jid) "status" <;>
      simp [ProductionCoordinator.HandleGetJobStatus, RedisClientProduction.GetHash, h]

theorem getAvailableWorkers_empty (s : Store) (now worker_timeout : Int) :
    ProductionCoordinator.GetAvailableWorkers s now worker_timeout = [] := rfl

/-- Claim C9: when the materialization loop pops a job_id from a non-empty
`job_queue` and no workers are available — which in this build is every run,
since `GetAvailableWorkers` filters the stub `GetActiveWorkers` — the job_id is
pushed back onto `job_queue`, restoring the queue, and every hash in the store
is untouched: the job's record keeps its status (pending) and gains no
`started_at`, and no task record is written. -/
theorem c9_no_workers_requeue (s : Store) (now : Nat) (worker_timeout : Int)
    (jid : String) (rest : List String) (h : s.list "job_queue" = jid :: rest) :
    (ProductionCoordinator.ProcessPendingJobs s now worker_timeout).list "job_queue" =
      s.list "job_queue" ∧
    (ProductionCoordinator.ProcessPendingJobs s now worker_timeout).hash = s.hash := by
  have hlen : ¬ (RedisClientProduction.GetListLength s "job_queue" ≤ 0) := by
    simp only [RedisClientProduction.GetListLength, h, List.length_cons]
    omega
  unfold ProductionCoordinator.ProcessPendingJobs
  rw [if_neg hlen, h, List.length_cons]
  simp only [ProductionCoordinator.processLoop, RedisClientProduction.PopLeft, Store.lpop, h,
    getAvailableWorkers_empty, if_pos, RedisClientProduction.PushLeft, Store.lpush]
  constructor
  · simp [h]
  · trivial

/-- A store with a single submitted job waiting in `job_queue`. -/
def c9Store : Store :=
  { Store.empty with list := fun k => if k = "job_queue" then ["jobQ"] else [] }

/-- Witness for C9: the requeue theorem applied to a concrete store whose
`job_queue` holds exactly one job id. -/
theorem c9_no_workers_requeue_witness :
    (ProductionCoordinator.ProcessPendingJobs c9Store 7 300).list "job_queue" =
      c9Store.list "job_queue" ∧
    (ProductionCoordinator.ProcessPendingJobs c9Store 7 300).hash = c9Store.hash :=
  c9_no_workers_requeue c9Store 7 300 "jobQ" [] rfl
